import Mathlib

/-!
Verification development for the i551 chat server (prj1-sol).
The definitions below are a shallow embedding of the C sources
`chat-io.c` and `chat.c`: character classification, word splitting
(strtok on a single space delimiter), the ADD/QUERY command parsing in
`chat_io`, the linked-list message store, and the query display logic
in `display_chat_messages`.  Input is modelled as a list of lines
(without their trailing newline); every character written to the error
stream is accumulated into one output string, in write order, since the
program writes both diagnostics and query results via fprintf to the
same stream.
-/

namespace Chat

/-- ASCII lower-casing of a single character, as C tolower in the
default locale. -/
def to_lower_char (c : Char) : Char :=
  if 65 ≤ c.toNat ∧ c.toNat ≤ 90 then Char.ofNat (c.toNat + 32) else c

/-- Embedding of `to_lowercase` from chat-io.c: lower-case every
character of the string. -/
def to_lowercase (s : String) : String :=
  (s.data.map to_lower_char).asString

/-- C isalpha in the default locale: ASCII letter. -/
def is_alpha_c (c : Char) : Bool :=
  (65 ≤ c.toNat && c.toNat ≤ 90) || (97 ≤ c.toNat && c.toNat ≤ 122)

/-- C isdigit: ASCII decimal digit. -/
def is_digit_c (c : Char) : Bool :=
  48 ≤ c.toNat && c.toNat ≤ 57

/-- C isspace in the default locale. -/
def is_space_c (c : Char) : Bool :=
  c = ' ' || c = '\t' || c = '\n' || c = '\x0b' || c = '\x0c' || c = '\r'

/-- Embedding of `trim_whitespace` from chat-io.c: strip leading and
trailing isspace characters. -/
def trim_whitespace (s : String) : String :=
  (((s.data.dropWhile is_space_c).reverse.dropWhile is_space_c).reverse).asString

/-- True iff the string is non-empty and its first character is `c`;
this is the C idiom `s[0] == c` on a NUL-terminated string. -/
def starts_with_char (s : String) (c : Char) : Bool :=
  match s.data with
  | [] => false
  | d :: _ => d = c

/-- Word splitting as performed by repeated `strtok(_, " ")` with the
single delimiter character space: maximal runs of non-space
characters, empty runs skipped. -/
def split_words_aux : List Char → List Char → List String
  | [], acc => if acc = [] then [] else [acc.reverse.asString]
  | c :: cs, acc =>
    if c = ' ' then
      if acc = [] then split_words_aux cs []
      else acc.reverse.asString :: split_words_aux cs []
    else split_words_aux cs (c :: acc)

/-- The tokens strtok produces from a character list, delimited by the
space character. -/
def split_words (l : List Char) : List String :=
  split_words_aux l []

/-- C atoi on a token whose first character is a digit: the value of
the maximal leading digit run (modelled without overflow, as Nat). -/
def atoi_nat_aux : List Char → Nat → Nat
  | [], acc => acc
  | c :: cs, acc =>
    if is_digit_c c then atoi_nat_aux cs (acc * 10 + (c.toNat - 48)) else acc

/-- C atoi restricted to the reachable call sites (first char a digit). -/
def atoi_nat (s : String) : Nat :=
  atoi_nat_aux s.data 0

/-- The ChatMsg struct of chat.h: user, room, topics array, message
text.  Strings are stored exactly as the parser passes them in. -/
structure ChatMsg where
  user : String
  room : String
  topics : List String
  message : String
deriving DecidableEq

/-- Embedding of `create_chat_message` from chat.c: copies every field
verbatim (allocation failure is not modelled). -/
def create_chat_message (user room message : String) (topics : List String) : ChatMsg :=
  ⟨user, room, topics, message⟩

/-- Embedding of `add_chat_msg` from chat.c: prepend to the global
linked list, so the head of the list is the most recently added
message. -/
def add_chat_msg (msg : ChatMsg) (store : List ChatMsg) : List ChatMsg :=
  msg :: store

/-- Embedding of `message_matches_topics` from chat.c: every query
topic occurs (by strcmp equality) among the message topics; an empty
query topic list always matches. -/
def message_matches_topics (msg : ChatMsg) (topics : List String) : Bool :=
  topics.all (fun t => msg.topics.any (fun mt => mt == t))

/-- Embedding of `is_valid_room` from chat.c: some stored message has
exactly this room string. -/
def is_valid_room (store : List ChatMsg) (room : String) : Bool :=
  store.any (fun m => room == m.room)

/-- Embedding of `is_valid_topics` from chat.c: every query topic
occurs in some stored message's topic list. -/
def is_valid_topics (store : List ChatMsg) (topics : List String) : Bool :=
  topics.all (fun t => store.any (fun m => m.topics.any (fun mt => mt == t)))

/-- The topic printing loop of `display_chat_messages`: each topic is
printed, with a single space between consecutive topics (no space
after the last). -/
def print_topics : List String → String
  | [] => ""
  | [t] => t
  | t :: t2 :: rest => t ++ " " ++ print_topics (t2 :: rest)

/-- The text `display_chat_messages` writes for one matching message:
`"%s %s "` with user and room, the topics, a newline, then the stored
message text verbatim. -/
def render_msg (m : ChatMsg) : String :=
  m.user ++ " " ++ m.room ++ " " ++ print_topics m.topics ++ "\n" ++ m.message

/-- The scanning loop of `display_chat_messages`: walk the store from
the head (most recent) while fewer than `count` messages have been
printed; print each message whose room matches by strcmp and whose
topics contain all query topics.  Returns the printed text and the
`found` flag. -/
def display_loop (room : String) (topics : List String) :
    List ChatMsg → Nat → String × Bool
  | [], _ => ("", false)
  | _ :: _, 0 => ("", false)
  | m :: rest, Nat.succ k =>
    if room == m.room && message_matches_topics m topics then
      (render_msg m ++ (display_loop room topics rest k).1, true)
    else display_loop room topics rest (Nat.succ k)

/-- Embedding of `display_chat_messages` from chat.c: run the scan
loop, then, only when nothing was printed, report `BAD_ROOM` when the
room is unknown to the store, and additionally `BAD_TOPIC` when topics
were supplied and some topic is unknown to the store. -/
def display_chat_messages (store : List ChatMsg) (count : Nat)
    (room : String) (topics : List String) : String :=
  let r := display_loop room topics store count
  r.1
  ++ (if !r.2 && !is_valid_room store room then "BAD_ROOM\n" else "")
  ++ (if !r.2 && decide (0 < topics.length) && !is_valid_topics store topics then
        "BAD_TOPIC\n" else "")

/-- The message collection loop of the ADD branch in `chat_io`: read
lines until one whose FIRST character is a period (that line is
consumed but not stored) or end of input.  Returns the collected body
lines and the remaining input. -/
def collect_body : List String → List String × List String
  | [] => ([], [])
  | l :: rest =>
    if starts_with_char l '.' then ([], rest)
    else (l :: (collect_body rest).1, (collect_body rest).2)

/-- The body text built by `concatenate_message`: each collected line
with its original newline appended. -/
def body_string (lines : List String) : String :=
  String.join (lines.map (fun l => l ++ "\n"))

/-- Header parsing of the ADD branch of `chat_io` on the token list of
the line after the leading `+`: a word starting with `@` (else
BAD_USER), then a word starting with an ASCII letter (else BAD_ROOM),
then a word starting with `#` is required (else BAD_TOPIC); the run of
`#`-words is collected lower-cased and any tokens after that run are
silently discarded. -/
def parse_add_header (ws : List String) :
    Except String (String × String × List String) :=
  match ws with
  | [] => Except.error "BAD_USER\n"
  | u :: rest =>
    if !starts_with_char u '@' then Except.error "BAD_USER\n"
    else match rest with
      | [] => Except.error "BAD_ROOM\n"
      | r :: rest2 =>
        if !(match r.data with | [] => false | c :: _ => is_alpha_c c) then
          Except.error "BAD_ROOM\n"
        else match rest2 with
          | [] => Except.error "BAD_TOPIC\n"
          | t0 :: _ =>
            if !starts_with_char t0 '#' then Except.error "BAD_TOPIC\n"
            else Except.ok (u, r,
              (rest2.takeWhile (fun w => starts_with_char w '#')).map to_lowercase)

/-- Parsing of the QUERY branch of `chat_io` on the token list of the
line after its first TWO characters: a word starting with a letter
(else BAD_ROOM); if the next word starts with a digit it is consumed
as COUNT via atoi (the `count < 0` test on a size_t can never fire, so
no BAD_COUNT is possible); then either no words remain, or a run of
`#`-words collected lower-cased (tokens after the run discarded), or a
remaining non-`#` word gives BAD_TOPIC. -/
def parse_query (ws : List String) :
    Except String (String × Nat × List String) :=
  match ws with
  | [] => Except.error "BAD_ROOM\n"
  | r :: rest =>
    if !(match r.data with | [] => false | c :: _ => is_alpha_c c) then
      Except.error "BAD_ROOM\n"
    else
      let p : Nat × List String :=
        match rest with
        | w :: ws2 =>
          if (match w.data with | [] => false | c :: _ => is_digit_c c) then
            (atoi_nat w, ws2)
          else (1, rest)
        | [] => (1, [])
      match p.2 with
      | [] => Except.ok (r, p.1, [])
      | w :: _ =>
        if starts_with_char w '#' then
          Except.ok (r, p.1,
            (p.2.takeWhile (fun x => starts_with_char x '#')).map to_lowercase)
        else Except.error "BAD_TOPIC\n"

/-- One pass of the main loop of `chat_io`, with explicit fuel (one
unit per command line; `chat_io` below supplies `input.length`, which
always suffices since every iteration consumes at least the command
line).  State: remaining input lines and the message store; result:
final store and everything written to the error stream, in order. -/
def chat_io_loop : Nat → List String → List ChatMsg → List ChatMsg × String
  | 0, _, store => (store, "")
  | _ + 1, [], store => (store, "")
  | fuel + 1, line :: rest, store =>
    let t := trim_whitespace line
    if starts_with_char t '+' then
      match parse_add_header (split_words (t.data.drop 1)) with
      | Except.error e =>
        let r := chat_io_loop fuel rest store
        (r.1, e ++ r.2)
      | Except.ok (u, rm, ts) =>
        let b := collect_body rest
        if b.1 = [] then
          let r := chat_io_loop fuel b.2 store
          (r.1, "NO_MSG\n" ++ r.2)
        else
          let msg := create_chat_message u rm (body_string b.1) ts
          chat_io_loop fuel b.2 (add_chat_msg msg store)
    else if starts_with_char t '?' then
      match parse_query (split_words (t.data.drop 2)) with
      | Except.error e =>
        let r := chat_io_loop fuel rest store
        (r.1, e ++ r.2)
      | Except.ok (rm, count, ts) =>
        let q := display_chat_messages store count rm ts
        let r := chat_io_loop fuel rest store
        (r.1, q ++ r.2)
    else if starts_with_char t '.' then
      chat_io_loop fuel rest store
    else
      let r := chat_io_loop fuel rest store
      (r.1, "BAD_COMMAND\n" ++ r.2)

/-- Embedding of `chat_io`: process all input lines starting from an
empty store, returning the final store and the error-stream output. -/
def chat_io (input : List String) : List ChatMsg × String :=
  chat_io_loop input.length input []

theorem string_foldl_append (l : List String) :
    ∀ a : String, l.foldl (fun r s => r ++ s) a
      = a ++ l.foldl (fun r s => r ++ s) "" := by
  induction l with
  | nil => intro a; simp
  | cons x xs ih =>
    intro a
    simp only [List.foldl_cons]
    rw [ih (a ++ x), ih ("" ++ x), String.empty_append, String.append_assoc]

theorem string_join_cons (s : String) (l : List String) :
    String.join (s :: l) = s ++ String.join l := by
  simp only [String.join, List.foldl_cons, String.empty_append]
  exact string_foldl_append l s

theorem display_loop_eq_take_filter (room : String) (topics : List String) :
    ∀ (store : List ChatMsg) (count : Nat),
    (display_loop room topics store count).1
      = String.join
          (((store.filter
              (fun m => room == m.room && message_matches_topics m topics)).take
            count).map render_msg) := by
  intro store
  induction store with
  | nil => intro count; cases count <;> rfl
  | cons m rest ih =>
    intro count
    cases count with
    | zero => rfl
    | succ k =>
      by_cases h : (room == m.room && message_matches_topics m topics) = true
      · simp only [display_loop, h, if_pos, List.filter_cons_of_pos,
          List.take_succ_cons, List.map_cons, string_join_cons, ih k]
      · simp only [display_loop, h, if_neg, Bool.not_eq_true,
          List.filter_cons_of_neg, ih (Nat.succ k)]

theorem intercalate_go_eq_print_topics :
    ∀ (as : List String) (a : String),
    String.intercalate.go a " " as = print_topics (a :: as) := by
  intro as
  induction as with
  | nil => intro a; rfl
  | cons b bs ih =>
    intro a
    rw [String.intercalate.go, ih (a ++ " " ++ b)]
    cases bs with
    | nil => simp [print_topics, String.append_assoc]
    | cons c cs => simp [print_topics, String.append_assoc]

theorem print_topics_eq_intercalate (ts : List String) :
    print_topics ts = String.intercalate " " ts := by
  cases ts with
  | nil => rfl
  | cons a as =>
    rw [String.intercalate, intercalate_go_eq_print_topics as a]

/-- Claim C4: for every QUERY scan with room r, count n and requested
topics T over the store (whose head is the most recently added
message), the printed result is exactly the renderings, in scan order,
of the first n messages matching room equality and topic containment;
an empty T imposes no topic constraint; and `add_chat_msg` prepends,
so the scan order is most-recent-first. -/
theorem claim_C4_query_scan :
    (∀ (store : List ChatMsg) (count : Nat) (room : String) (topics : List String),
      (display_loop room topics store count).1
        = String.join
            (((store.filter
                (fun m => room == m.room && message_matches_topics m topics)).take
              count).map render_msg))
    ∧ (∀ (m : ChatMsg) (room : String),
        (room == m.room && message_matches_topics m []) = (room == m.room))
    ∧ (∀ (msg : ChatMsg) (store : List ChatMsg), add_chat_msg msg store = msg :: store) := by
  refine ⟨?_, ?_, ?_⟩
  · intro store count room topics
    exact display_loop_eq_take_filter room topics store count
  · intro m room
    simp [message_matches_topics]
  · intro msg store
    rfl

/-- Claim C10: the header line printed for a matched message is the
stored user, a space, the stored room, a space, then the stored topics
separated by single spaces, then the newline and the stored body; with
zero topics the header ends in a space immediately before the
newline. -/
theorem claim_C10_header_format :
    (∀ ts : List String, print_topics ts = String.intercalate " " ts)
    ∧ (∀ m : ChatMsg,
        render_msg m
          = m.user ++ " " ++ m.room ++ " " ++ String.intercalate " " m.topics
            ++ "\n" ++ m.message)
    ∧ (∀ u r b : String,
        render_msg ⟨u, r, [], b⟩ = u ++ " " ++ r ++ " " ++ "\n" ++ b) := by
  refine ⟨print_topics_eq_intercalate, ?_, ?_⟩
  · intro m
    rw [render_msg, print_topics_eq_intercalate]
  · intro u r b
    simp [render_msg, print_topics]

/-- Claim C9: in the QUERY branch the second character of the line is
skipped unconditionally (`strtok(line + 2, " ")`), so the line
`?room 2` tokenizes to room `oom` with count 2; a store holding room
`oom` answers that query with its message, while a store holding room
`room` answers it with BAD_ROOM. -/
theorem claim_C9_query_skips_two :
    split_words ("?room 2".data.drop 2) = ["oom", "2"]
    ∧ parse_query (split_words ("?room 2".data.drop 2))
        = Except.ok ("oom", 2, [])
    ∧ (chat_io ["+ @u oom #t", "hi", ".", "?room 2"]).2 = "@u oom #t\nhi\n"
    ∧ (chat_io ["+ @u room #t", "hi", ".", "?room 2"]).2 = "BAD_ROOM\n" := by
  exact ⟨rfl, rfl, rfl, rfl⟩

/-- Claim C1 evaluation: an ADD stores user and room exactly as typed
(only topics are lower-cased), and a QUERY naming room `R` after an
ADD to room `r` finds nothing and reports BAD_ROOM, because the room
comparison is a case-sensitive strcmp. -/
theorem claim_C1_code_eval :
    (chat_io ["+ @Alice ROOM #T", "hi", "."]).1
      = [create_chat_message "@Alice" "ROOM" "hi\n" ["#t"]]
    ∧ (chat_io ["+ @alice r #t", "hi", ".", "? R"]).2 = "BAD_ROOM\n" := by
  exact ⟨rfl, rfl⟩

/-- Claim C2 evaluation: an ADD with topics `#a #B #a` stores the
topic sequence `#a, #b, #a` — lower-cased but with the duplicate
kept, since no deduplication is performed anywhere. -/
theorem claim_C2_code_eval :
    (chat_io ["+ @u r #a #B #a", "m", "."]).1
      = [create_chat_message "@u" "r" "m\n" ["#a", "#b", "#a"]] := by
  exact rfl

/-- Claim C3 evaluation: a QUERY whose room and topics are both
unknown to the store writes TWO error lines, `BAD_ROOM` then
`BAD_TOPIC`, and neither line carries the `: <message>` suffix. -/
theorem claim_C3_code_eval :
    (chat_io ["+ @u rm #t", "m", ".", "? xzz #qq"]).2
      = "BAD_ROOM\nBAD_TOPIC\n" := by
  exact rfl

/-- Claim C5 evaluation: a successful QUERY's output is exactly the
rendered matches with no terminating blank line, and a QUERY with
valid room and topics but zero matches produces no output at all. -/
theorem claim_C5_code_eval :
    (chat_io ["+ @u r #t", "hello", ".", "? r"]).2 = "@u r #t\nhello\n"
    ∧ (chat_io ["+ @u r #a", "x", ".", "+ @v s #b", "y", ".", "? r #b"]).2 = "" := by
  exact ⟨rfl, rfl⟩

/-- Claim C6 evaluation: a QUERY whose second word is `0` is accepted
with count 0 — no BAD_COUNT is reported (the `count < 0` test on an
unsigned size_t can never fire) and no output is produced. -/
theorem claim_C6_code_eval :
    parse_query ["r", "0"] = Except.ok ("r", 0, [])
    ∧ (chat_io ["+ @u r #t", "m", ".", "? r 0"]).2 = "" := by
  exact ⟨rfl, rfl⟩

/-- Claim C7 evaluation: an ADD line `+ @u room1` with no topics is
rejected with BAD_TOPIC, nothing is stored, and the would-be body
lines are then misread as commands (`hello` gives BAD_COMMAND). -/
theorem claim_C7_code_eval :
    (chat_io ["+ @u room1", "hello", "."]).1 = []
    ∧ (chat_io ["+ @u room1", "hello", "."]).2 = "BAD_TOPIC\nBAD_COMMAND\n" := by
  exact ⟨rfl, rfl⟩

/-- Claim C8 evaluation: a body line `.keep` is treated as the
terminator (only its first character is inspected), so the ADD gets
zero body lines and reports NO_MSG; and an ADD whose body hits
end-of-input with no terminator line stores the message instead of
reporting NO_MSG. -/
theorem claim_C8_code_eval :
    (chat_io ["+ @u r #t", ".keep", "more", "."]).2 = "NO_MSG\nBAD_COMMAND\n"
    ∧ (chat_io ["+ @u r #t", "hello"]).1
        = [create_chat_message "@u" "r" "hello\n" ["#t"]]
    ∧ (chat_io ["+ @u r #t", "hello"]).2 = "" := by
  exact ⟨rfl, rfl, rfl⟩

end Chat
